import Mathlib

/-!
Verification model of the session lifecycle controller of
koishi-plugin-puppeteer-without-canvas.

The definitions below are a shallow embedding of `src/index.ts`
(class `Puppeteer`: `startBrowser`, `stopBrowser`, `ensureConnected`,
`checkAndCloseBrowser`, the `page` factory, `injectDefaultFont`) and
`src/font-server.ts` (class `FontServer`).  External I/O (the puppeteer
engine's `connect`/`launch`, the file system, the HTTP listener) is
represented by explicit oracle parameters: each awaited engine call takes
its outcome from the oracle, and the embedded control flow around those
outcomes is translated line by line from the source.
-/

/-! ## String utilities

`includesStr s pat` models JavaScript `s.includes(pat)` (substring test),
used by `ensureConnected` to detect the 404 error class. -/

def isPrefixCh : List Char → List Char → Bool
  | [], _ => true
  | _ :: _, [] => false
  | p :: ps, c :: cs => p == c && isPrefixCh ps cs

def hasInfixCh : List Char → List Char → Bool
  | pat, [] => isPrefixCh pat []
  | pat, c :: cs => isPrefixCh pat (c :: cs) || hasInfixCh pat cs

def includesStr (s pat : String) : Bool := hasInfixCh pat.data s.data

/-! ## Endpoint classification

`src/index.ts` parses the configured connection string with `new URL(...)`
in three places (startBrowser 322-338, ensureConnected 504-518 and
549-557).  The embedding abstracts the URL parser: a connection string
carries its raw text and its parse outcome (malformed, or parsed with a
protocol, e.g. "ws:").  The decision logic on top of the parse outcome is
translated from the source. -/

inductive URLParse
  | malformed
  | parsed (protocol : String)
deriving DecidableEq

structure ConnStr where
  raw : String
  parse : URLParse
deriving DecidableEq

/-- `['ws:', 'wss:'].includes(endpointURL.protocol)` (index.ts 325, 508, 552). -/
def isWsProto (p : String) : Bool := p == "ws:" || p == "wss:"

/-- `['http:', 'https:'].includes(endpointURL.protocol)` (index.ts 328, 511, 554). -/
def isHttpProto (p : String) : Bool := p == "http:" || p == "https:"

/-- Outcome of the endpoint classification in `startBrowser`
(index.ts 322-338): ws/wss → `browserWSEndpoint`, http/https →
`browserURL`, other scheme → throw (unsupported protocol), parse
failure (`TypeError` from `new URL`) → throw (invalid URL). -/
inductive StartClass
  | directSocket (url : String)
  | discovery (url : String)
  | invalidScheme (protocol : String)
  | invalidURL (raw : String)
deriving DecidableEq

def classifyStart (c : ConnStr) : StartClass :=
  match c.parse with
  | .malformed => .invalidURL c.raw
  | .parsed p =>
    if isWsProto p then .directSocket c.raw
    else if isHttpProto p then .discovery c.raw
    else .invalidScheme p

/-- Error message thrown for an unsupported scheme (index.ts 331). -/
def schemeErrMsg (p : String) : String :=
  "不支持的协议: " ++ p ++ "，endpoint 必须以 ws://, wss://, http:// 或 https:// 开头"

/-- Error message thrown for an unparseable endpoint URL (index.ts 335). -/
def urlErrMsg (raw : String) : String :=
  "无效的 endpoint URL: " ++ raw ++ "，请检查格式是否正确"

/-- The error message `startBrowser` raises for each classification
outcome (`none` when the classification succeeds and no error is thrown). -/
def startClassError : StartClass → Option String
  | .directSocket _ => none
  | .discovery _ => none
  | .invalidScheme p => some (schemeErrMsg p)
  | .invalidURL raw => some (urlErrMsg raw)

/-- Which connect option the reconnection code passes to
`puppeteer.connect` (index.ts 497-518): the saved ws endpoint if present,
otherwise the classification of the configured endpoint; an unsupported
scheme or a malformed URL sets neither option (`unset`) and the code
proceeds to the connect call anyway (505-517 has no `else` branch and the
`catch` at 515 only logs a warning). -/
inductive ConnTarget
  | wsEndpoint (u : String)
  | browserURL (u : String)
  | unset
deriving DecidableEq

def chooseTarget (ws : Option String) (ep : Option ConnStr) : ConnTarget :=
  match ws with
  | some w => .wsEndpoint w
  | none =>
    match ep with
    | none => .unset
    | some c =>
      match c.parse with
      | .malformed => .unset
      | .parsed p =>
        if isWsProto p then .wsEndpoint c.raw
        else if isHttpProto p then .browserURL c.raw
        else .unset

/-- Connect option used by the one-shot 404 fallback (index.ts 548-559).
`none` means no connect call happens at all: a malformed configured
endpoint makes `new URL` throw inside the inner `try` (551) before
`puppeteer.connect` is reached, and the inner `catch` (573) only warns. -/
def fallbackTarget (ep : Option ConnStr) : Option ConnTarget :=
  match ep with
  | none => some .unset
  | some c =>
    match c.parse with
    | .malformed => none
    | .parsed p =>
      some (if isWsProto p then .wsEndpoint c.raw
            else if isHttpProto p then .browserURL c.raw
            else .unset)

/-- Common abstraction used to compare the two classification sites
(claim C5): what the classification decides about the connect call. -/
inductive ClassOutcome
  | direct (u : String)
  | discovery (u : String)
  | invalid
  | proceedUnset
deriving DecidableEq

/-- Classification outcome of the initial connect (startBrowser):
invalid inputs abort the connect with an error. -/
def startOutcome (c : ConnStr) : ClassOutcome :=
  match classifyStart c with
  | .directSocket u => .direct u
  | .discovery u => .discovery u
  | .invalidScheme _ => .invalid
  | .invalidURL _ => .invalid

/-- Classification outcome of a reconnect attempt with no saved ws
endpoint (ensureConnected 504-518): invalid inputs do not abort — the
code proceeds to `puppeteer.connect` with neither option set. -/
def reconnectOutcome (c : ConnStr) : ClassOutcome :=
  match chooseTarget none (some c) with
  | .wsEndpoint u => .direct u
  | .browserURL u => .discovery u
  | .unset => .proceedUnset

/-! ## ensureConnected (index.ts 463-588)

The engine's `puppeteer.connect` is an oracle `Nat → ConnectOutcome`
giving the outcome of the n-th connect call of the run.  A run records
every connect attempt (its kind, the value of `retryCount` at the moment
the connect is issued, and the target option used), so that the retry
budget accounting is observable. -/

inductive ConnectOutcome
  | err (msg : String)
  | ok (connected : Bool) (ws : String)
deriving DecidableEq

/-- A connect call fails the `this.browser.connected` check (524) unless
it returns a connected browser; an `ok false` result reaches the
`throw new Error('连接后浏览器状态仍为断开')` at 535. -/
def isFailure : ConnectOutcome → Bool
  | .ok true _ => false
  | _ => true

/-- The e.message seen by the catch block (537) for a failed attempt. -/
def failMsgOf : ConnectOutcome → String
  | .err m => m
  | .ok _ _ => "连接后浏览器状态仍为断开"

/-- `e.message?.includes('404') || e.message?.includes('Unexpected server
response: 404')` (index.ts 541). -/
def is404 (m : String) : Bool :=
  includesStr m "404" || includesStr m "Unexpected server response: 404"

inductive AttemptKind
  | normal
  | fallback
deriving DecidableEq

structure AttemptRec where
  kind : AttemptKind
  retryCountAt : Nat
  target : ConnTarget
deriving DecidableEq

structure RcConfig where
  immediateClose : Bool
  enableReconnect : Bool
  endpoint : Option ConnStr
  maxReconnectRetries : Option Nat
deriving DecidableEq

structure RcState where
  browserConnected : Bool
  browserWSEndpoint : Option String
deriving DecidableEq

deriving instance DecidableEq for Except

structure RunResult where
  result : Except String Unit
  finalWS : Option String
  attempts : List AttemptRec
  freshStart : Bool
deriving DecidableEq

/-- `this.config.maxReconnectRetries ?? 3` (index.ts 486). -/
def maxRetriesOf (cfg : RcConfig) : Nat := cfg.maxReconnectRetries.getD 3

/-- Terminal error raised when the retries exhaust (index.ts 580). -/
def reconnectFailMsg (m : String) : String := "浏览器重新连接失败: " ++ m

/-- The `while (retryCount < maxRetries)` loop of `ensureConnected`
(index.ts 488-587).  `fuel` is `maxRetries - retryCount` at entry and
decreases with every `retryCount++`; since `retryCount` is checked
against `maxRetries` both by the loop guard and by the terminal-error
check (578), the `fuel = 0` equation coincides with the loop guard
failing and the loop returning normally (with the browser still
disconnected).  `ws` is `this.browserWSEndpoint`, `rc` is `retryCount`,
`idx` numbers the connect calls consumed from the oracle. -/
def rcLoop (cfg : RcConfig) (oracle : Nat → ConnectOutcome) :
    Nat → Option String → Nat → Nat → RunResult
  | 0, ws, _, _ => ⟨.ok (), ws, [], false⟩
  | fuel + 1, ws, rc, idx =>
    if rc < maxRetriesOf cfg then
      -- lines 493-495: optional sleep (no modeled effect); 497-518: pick target
      let att : AttemptRec := ⟨.normal, rc, chooseTarget ws cfg.endpoint⟩
      match oracle idx with
      | .ok true w =>
        -- lines 524-533: success, save the new ws endpoint and return
        ⟨.ok (), some w, [att], false⟩
      | outcome =>
        -- catch block, line 537: retryCount++
        let m := failMsgOf outcome
        if is404 m then
          -- lines 541-576: clear saved endpoint, one-shot fallback connect
          match fallbackTarget cfg.endpoint with
          | some ft =>
            let fatt : AttemptRec := ⟨.fallback, rc + 1, ft⟩
            match oracle (idx + 1) with
            | .ok true w => ⟨.ok (), some w, [att, fatt], false⟩
            | _ =>
              if maxRetriesOf cfg ≤ rc + 1 then
                ⟨.error (reconnectFailMsg m), none, [att, fatt], false⟩
              else
                let rest := rcLoop cfg oracle fuel none (rc + 1) (idx + 2)
                ⟨rest.result, rest.finalWS, att :: fatt :: rest.attempts, false⟩
          | none =>
            -- new URL threw in the fallback try: warn only, no connect call
            if maxRetriesOf cfg ≤ rc + 1 then
              ⟨.error (reconnectFailMsg m), none, [att], false⟩
            else
              let rest := rcLoop cfg oracle fuel none (rc + 1) (idx + 1)
              ⟨rest.result, rest.finalWS, att :: rest.attempts, false⟩
        else
          -- lines 578-585: terminal throw or backoff sleep and retry
          if maxRetriesOf cfg ≤ rc + 1 then
            ⟨.error (reconnectFailMsg m), ws, [att], false⟩
          else
            let rest := rcLoop cfg oracle fuel ws (rc + 1) (idx + 1)
            ⟨rest.result, rest.finalWS, att :: rest.attempts, false⟩
    else ⟨.ok (), ws, [], false⟩

/-- `ensureConnected` (index.ts 463-588).  The immediateClose branch
(465-468) performs a fresh `startBrowser` (modeled as `freshStart`);
a connected browser is a no-op (471); otherwise the reconnection
protocol runs with its two terminal pre-checks (474-482). -/
def ensureConnected (cfg : RcConfig) (st : RcState) (oracle : Nat → ConnectOutcome) :
    RunResult :=
  if cfg.immediateClose && !st.browserConnected then
    ⟨.ok (), st.browserWSEndpoint, [], true⟩
  else if st.browserConnected then
    ⟨.ok (), st.browserWSEndpoint, [], false⟩
  else if cfg.enableReconnect == false then
    ⟨.error "浏览器连接已断开，且未启用自动重连", st.browserWSEndpoint, [], false⟩
  else if !(st.browserWSEndpoint.isSome || cfg.endpoint.isSome) then
    ⟨.error "浏览器连接已断开，且没有可用的重连端点", st.browserWSEndpoint, [], false⟩
  else
    rcLoop cfg oracle (maxRetriesOf cfg) st.browserWSEndpoint 0 0

/-! ## stopBrowser (index.ts 423-438)

The whole body, including the three state-clearing assignments, sits
inside one `try` whose `catch` logs a warning; `callFails` is the
outcome of the awaited `this.browser.disconnect()` (remote) or
`this.browser.close()` (local) — `some m` when that call rejects with
message `m`. -/

structure StopState where
  browser : Bool
  browserWSEndpoint : Option String
  activePageCount : Int
deriving DecidableEq

/-- The `try` block (424-434): if a handle exists, await disconnect/close
(a rejection aborts the block before the assignments at 431-433), then
clear `browser`, `browserWSEndpoint` and `activePageCount`. -/
def stopBrowserBody (st : StopState) (callFails : Option String) :
    Except String StopState :=
  if st.browser then
    match callFails with
    | some m => .error m
    | none => .ok ⟨false, none, 0⟩
  else .ok st

/-- `stopBrowser` with its `catch` (435-437): the error is logged
(second component) and never propagated; the state mutation that the
`try` block reached is kept (none, when the disconnect call threw). -/
def stopBrowser (st : StopState) (callFails : Option String) :
    StopState × Option String :=
  match stopBrowserBody st callFails with
  | .ok st2 => (st2, none)
  | .error m => (st, some ("停止浏览器时出现错误: " ++ m))

/-! ## Page reference tracking (index.ts 623-698, 440-460)

In `immediateClose` mode the `page` factory increments
`activePageCount` (648) right after `newPage`/font injection succeed and
wraps `close` (650-654) to decrement and run `checkAndCloseBrowser`.
`checkAndCloseBrowser` (441-460) calls `stopBrowser` — which resets the
count to 0 — only when `activePageCount <= 0` and only blank pages
remain; the `teardown` flag on an event says whether that reset fired.

A trace event is one caller-visible operation:
* `createOk` — `page()` returned a page (count incremented at 648);
* `createFailEarly` — `page()` failed before the increment
  (`ensureConnected` or `newPage` threw; `page` is still undefined in
  the catch at 690, so no close/decrement runs);
* `createFailLate` — `page()` failed after the increment (goto /
  setContent / font loading threw), the catch at 691-692 called the
  wrapped close and its `originalClose` resolved: increment then
  decrement;
* `createFailLateCloseFail` — `page()` failed after the increment and
  the cleanup close called from the catch (692) itself rejected: the
  wrapped close awaits `originalClose` at 651 before the decrement at
  652, so a rejection there skips the decrement and `checkAndClose`,
  leaving the counter incremented although no page was ever returned;
* `closeOk` — the caller closed a page it held and the underlying
  `originalClose` resolved: decrement, then `checkAndCloseBrowser`;
* `closeFail` — the caller closed a held page but `originalClose`
  rejected: the decrement at 652 is never reached.

Well-formedness (`wfOps`): a close event needs a held page — callers
can only close pages `page()` returned to them. -/

inductive PageOp
  | createOk
  | createFailEarly
  | createFailLate (teardown : Bool)
  | createFailLateCloseFail
  | closeOk (teardown : Bool)
  | closeFail
deriving DecidableEq

structure PageState where
  count : Int
  openPages : Nat
deriving DecidableEq

def pageStep (st : PageState) (op : PageOp) : PageState :=
  match op with
  | .createOk => ⟨st.count + 1, st.openPages + 1⟩
  | .createFailEarly => st
  | .createFailLate td =>
    let c := st.count + 1 - 1
    ⟨if td && decide (c ≤ 0) then 0 else c, st.openPages⟩
  | .createFailLateCloseFail => ⟨st.count + 1, st.openPages⟩
  | .closeOk td =>
    let c := st.count - 1
    ⟨if td && decide (c ≤ 0) then 0 else c, st.openPages - 1⟩
  | .closeFail => st

def pageRun : PageState → List PageOp → PageState
  | st, [] => st
  | st, op :: rest => pageRun (pageStep st op) rest

def wfOps : Nat → List PageOp → Bool
  | _, [] => true
  | o, .createOk :: rest => wfOps (o + 1) rest
  | o, .createFailEarly :: rest => wfOps o rest
  | o, .createFailLate _ :: rest => wfOps o rest
  | o, .createFailLateCloseFail :: rest => wfOps o rest
  | o, .closeOk _ :: rest => decide (0 < o) && wfOps (o - 1) rest
  | o, .closeFail :: rest => decide (0 < o) && wfOps o rest

/-- Number of page creations that succeeded in a trace. -/
def createsOf : List PageOp → Nat
  | [] => 0
  | .createOk :: rest => createsOf rest + 1
  | _ :: rest => createsOf rest

/-- Number of completed page closes in a trace. -/
def closesOf : List PageOp → Nat
  | [] => 0
  | .closeOk _ :: rest => closesOf rest + 1
  | _ :: rest => closesOf rest

/-- Number of failed creations whose cleanup close rejected, each
leaving the counter permanently incremented by one. -/
def leaksOf : List PageOp → Nat
  | [] => 0
  | .createFailLateCloseFail :: rest => leaksOf rest + 1
  | _ :: rest => leaksOf rest

/-! ## Concurrent ensureConnected (claim C8)

The source `ensureConnected` has no in-flight guard: no flag, no shared
promise.  Under the cooperative single-threaded scheduler each call is a
task that interleaves with others at its `await` points.  Abstracting one
disconnected-path execution of `ensureConnected` to its await-granularity
actions: `check` (line 471, atomic read of `browser.connected`; finishes
the task when connected), `sleepStep` (the awaited backoff sleep at 494),
`connectStep` (the awaited `puppeteer.connect` at 521, here taken to
succeed: it counts one connect attempt and sets the browser connected).
A schedule is the list of which of two tasks runs its next action. -/

inductive TAction
  | check
  | sleepStep
  | connectStep
deriving DecidableEq

structure RaceState where
  connected : Bool
  connectCalls : Nat
deriving DecidableEq

def taskStep (st : RaceState) (prog : List TAction) : RaceState × List TAction :=
  match prog with
  | [] => (st, [])
  | .check :: rest => if st.connected then (st, []) else (st, rest)
  | .sleepStep :: rest => (st, rest)
  | .connectStep :: rest => (⟨true, st.connectCalls + 1⟩, rest)

def runRace : List Bool → RaceState → List TAction → List TAction → RaceState
  | [], st, _, _ => st
  | pick :: sched, st, pa, pb =>
    if pick then
      let (st2, pa2) := taskStep st pa
      runRace sched st2 pa2 pb
    else
      let (st2, pb2) := taskStep st pb
      runRace sched st2 pa pb2

/-- One disconnected-path `ensureConnected` execution at await
granularity (no guard action exists anywhere in 463-588). -/
def ensureProg : List TAction := [.check, .sleepStep, .connectStep]

/-! ## FontServer (font-server.ts)

`statResult` is the outcome of `await stat(fontPath)` (`none`: stat
rejects, file missing; `some b`: `stats.isFile()` is `b`), `freshPort`
the port `getAvailablePort` found, `listenResult` the outcome of
`server.listen` (`some m`: the error event fired with message `m`). -/

structure FSState where
  hasServer : Bool
  port : Option Nat
  fontPath : Option String
deriving DecidableEq

inductive FSEvent
  | closeListener
  | bindPort (p : Nat)
deriving DecidableEq

structure FSEnv where
  statResult : Option Bool
  freshPort : Nat
  listenResult : Option String
deriving DecidableEq

def fontUrlOf (p : Nat) : String := "http://localhost:" ++ toString p ++ "/font"

/-- `getFontUrl` (font-server.ts 133-138). -/
def fsGetFontUrl (st : FSState) : Except String String :=
  match st.port with
  | none => .error "字体服务器未启动"
  | some p => .ok (fontUrlOf p)

/-- `stop` (font-server.ts 117-128): closes the listener and clears all
three fields when a server exists; otherwise does nothing. -/
def fsStop (st : FSState) : FSState × List FSEvent :=
  if st.hasServer then (⟨false, none, none⟩, [.closeListener])
  else (st, [])

/-- Supported font extensions (font-server.ts 41). -/
def supportedExts : List String := [".ttf", ".otf", ".woff", ".woff2", ".ttc"]

/-- `path.basename`, restricted to `/` separators. -/
def basenameOf (p : String) : String :=
  match (p.splitOn "/").reverse with
  | [] => p
  | x :: _ => x

/-- `path.extname`: the part of the basename from its last dot on;
empty for a dotless name or a leading-dot-only name. -/
def extnameOf (p : String) : String :=
  let b := basenameOf p
  match b.splitOn "." with
  | [] => ""
  | [_] => ""
  | parts =>
    if b.startsWith "." && parts.length == 2 then ""
    else
      match parts.reverse with
      | [] => ""
      | e :: _ => "." ++ e

/-- `start(fontPath)` (font-server.ts 21-112).  Returns the result (the
font URL or the thrown error), the new state, and the listener events in
order (closing the prior listener, binding the new port). -/
def fsStart (st : FSState) (fontPath : String) (env : FSEnv) :
    Except String String × FSState × List FSEvent :=
  -- 22-25: already serving the same path → return the existing URL
  if st.hasServer && st.fontPath == some fontPath && st.port.isSome then
    (fsGetFontUrl st, st, [])
  else
    -- 27-28: stop any prior listener first
    let (st1, ev1) := fsStop st
    -- 30: this.fontPath = fontPath (before validation)
    let st2 : FSState := ⟨st1.hasServer, st1.port, some fontPath⟩
    match env.statResult with
    | none => (.error ("无法访问字体文件: " ++ fontPath), st2, ev1)
    | some isFile =>
      if !isFile then
        (.error ("指定的路径不是文件: " ++ fontPath), st2, ev1)
      else
        let ext := (extnameOf fontPath).toLower
        if supportedExts.contains ext then
          -- 47-106: create the server, pick a port, listen
          let st3 : FSState := ⟨true, some env.freshPort, some fontPath⟩
          match env.listenResult with
          | none =>
            (.ok (fontUrlOf env.freshPort), st3, ev1 ++ [.bindPort env.freshPort])
          | some m =>
            (.error m, st3, ev1 ++ [.bindPort env.freshPort])
        else
          (.error ("不支持的字体文件格式: " ++ ext ++ "，支持的格式: " ++
            ".ttf, .otf, .woff, .woff2, .ttc"), st2, ev1)

/-! ## injectDefaultFont (index.ts 26-174)

The page operations awaited inside the function are oracles; everything
after the two early returns runs inside one `try` (35-170) whose `catch`
(171-173) logs and swallows the error. -/

inductive FontInjectMode
  | force
  | smart
deriving DecidableEq

structure InjectConfig where
  enableFont : Bool
  enableFontCache : Bool
  fontInjectMode : FontInjectMode
deriving DecidableEq

structure PageOracle where
  evalOnNewDocument : Except String Unit
  addStyleTagFont : Except String Unit
  evalHasAnyFontFamily : Except String Bool
  addStyleTagGlobal : Except String Unit
  evalWaitFontLoad : Except String Unit

inductive InjectStep
  | evaluateOnNewDocument
  | addStyleTag
  | evaluate
deriving DecidableEq

/-- Lines 122-168: inject the global font style and wait for the font. -/
def injectTail (acc : List InjectStep) (page : PageOracle) :
    Except String Unit × List InjectStep :=
  match page.addStyleTagGlobal with
  | .error m => (.error m, acc ++ [.addStyleTag])
  | .ok _ =>
    match page.evalWaitFontLoad with
    | .error m => (.error m, acc ++ [.addStyleTag, .evaluate])
    | .ok _ => (.ok (), acc ++ [.addStyleTag, .evaluate])

/-- The `try` block (36-170): service-worker registration script (when
`enableFontCache`), the `@font-face` style tag, the smart-mode probe,
then the conditional global injection. -/
def injectBody (cfg : InjectConfig) (page : PageOracle) :
    Except String Unit × List InjectStep :=
  let s1 : List InjectStep :=
    if cfg.enableFontCache then [.evaluateOnNewDocument] else []
  let r1 : Except String Unit :=
    if cfg.enableFontCache then page.evalOnNewDocument else .ok ()
  match r1 with
  | .error m => (.error m, s1)
  | .ok _ =>
    match page.addStyleTagFont with
    | .error m => (.error m, s1 ++ [.addStyleTag])
    | .ok _ =>
      let s2 := s1 ++ [.addStyleTag]
      match cfg.fontInjectMode with
      | .smart =>
        match page.evalHasAnyFontFamily with
        | .error m => (.error m, s2 ++ [.evaluate])
        | .ok hasAny =>
          if hasAny then (.ok (), s2 ++ [.evaluate])
          else injectTail (s2 ++ [.evaluate]) page
      | .force => injectTail s2 page

/-- `injectDefaultFont` (26-174): early return when font injection is
disabled (27-29) or no font URL is available (31-33); otherwise run the
body and catch any error, logging it (172).  First component: `.ok l`
with `l` the logged message, `.error` would be a propagated exception —
which the catch makes impossible.  Second: the page operations run. -/
def injectDefaultFont (cfg : InjectConfig) (fontUrl : Option String)
    (page : PageOracle) : Except String (Option String) × List InjectStep :=
  if !cfg.enableFont then (.ok none, [])
  else
    match fontUrl with
    | none => (.ok none, [])
    | some _ =>
      match injectBody cfg page with
      | (.ok _, steps) => (.ok none, steps)
      | (.error m, steps) => (.ok (some ("默认字体注入失败: " ++ m)), steps)

/-! ## Concrete instances used by counterexamples and witnesses -/

/-- A session state whose disconnect call will be made to throw. -/
def stopSt0 : StopState := ⟨true, some "ws://old", 5⟩

/-- ftp endpoint: unsupported scheme on both classification sites. -/
def ftpConn : ConnStr := ⟨"ftp://example.com", .parsed "ftp:"⟩

def wsConn : ConnStr := ⟨"ws://localhost:14550/devtools/browser/id", .parsed "ws:"⟩

def httpConn : ConnStr := ⟨"http://localhost:14550", .parsed "http:"⟩

/-- An unparseable connection string. -/
def badConn : ConnStr := ⟨"not a url", .malformed⟩

/-- Reconnection disabled. -/
def cfgNoRec : RcConfig := ⟨false, false, some wsConn, some 3⟩

/-- Reconnection enabled but no endpoint configured. -/
def cfgNoEp : RcConfig := ⟨false, true, none, some 3⟩

/-- Disconnected, no saved ws endpoint. -/
def stNoWs : RcState := ⟨false, none⟩

/-- maxReconnectRetries = 0, reconnection enabled, endpoint configured. -/
def cfgRetries0 : RcConfig := ⟨false, true, some wsConn, some 0⟩

/-- maxReconnectRetries = 3, discovery endpoint configured. -/
def cfgDisc3 : RcConfig := ⟨false, true, some httpConn, some 3⟩

def stDisc : RcState := ⟨false, some "ws://saved"⟩

/-- Every connect attempt is refused (not a 404-class error). -/
def oracleRefused : Nat → ConnectOutcome := fun _ => .err "ECONNREFUSED"

/-- First connect rejects with the 404 class; the next one succeeds. -/
def oracle404ThenOk : Nat → ConnectOutcome := fun i =>
  if i == 0 then .err "Unexpected server response: 404" else .ok true "ws://new"

/-- First connect rejects with the 404 class; every later one is refused. -/
def oracle404Fail : Nat → ConnectOutcome := fun i =>
  if i == 0 then .err "Unexpected server response: 404" else .err "ECONNREFUSED"

/-- A well-formed page-op trace: two creations, one failed create after
the increment, one failed close, two successful closes. -/
def opsW : List PageOp :=
  [.createOk, .createOk, .closeFail, .closeOk false, .createFailLate false,
   .closeOk true]

def opsWpre : List PageOp := [.createOk, .createOk, .closeFail]

def opsWsuf : List PageOp := [.closeOk false, .createFailLate false, .closeOk true]

/-- One `page()` call that fails after the increment and whose cleanup
close rejects: no page returned, no close completed, counter left at 1. -/
def opsLeak : List PageOp := [.createFailLateCloseFail]

/-- A trace mixing a successful page, a leaking failed creation and a
completed close. -/
def opsWleak : List PageOp :=
  [.createOk, .createFailLateCloseFail, .closeOk false]

/-- Two concurrent callers: A checks, B checks, B sleeps, B connects,
A sleeps, A connects — both pass the connected check before either
connect resolves. -/
def raceSched : List Bool := [true, false, false, false, true, true]

def fsRunning : FSState := ⟨true, some 4321, some "data/fonts/a.ttf"⟩

def fsEnvOk : FSEnv := ⟨some true, 5555, none⟩

def cfgInjectOff : InjectConfig := ⟨false, true, .smart⟩

def cfgInjectOn : InjectConfig := ⟨true, true, .smart⟩

/-- A page on which every injection operation fails. -/
def pageAllFail : PageOracle :=
  ⟨.error "eval boom", .error "style boom", .error "probe boom",
   .error "style2 boom", .error "wait boom"⟩

/-! # Theorems -/

theorem dataAppend (a b : String) : (a ++ b).data = a.data ++ b.data := by
  cases a; cases b; rfl

/-- The two invalid-endpoint messages of `startBrowser` can never
coincide, whatever the scheme and the raw string: the reason always
distinguishes an unsupported scheme from an unparseable URL. -/
theorem schemeErrMsg_ne_urlErrMsg (p r : String) : schemeErrMsg p ≠ urlErrMsg r := by
  intro h
  have h2 := congrArg String.data h
  simp only [schemeErrMsg, urlErrMsg, dataAppend] at h2
  simp only [List.cons_append] at h2
  injection h2 with hc _
  exact absurd hc (by decide)

/-- Claim C5 (amended): the classification of the configured connection
string agrees between the initial connect (`startBrowser`) and the
reconnect path for every ws/wss/http/https string; (the divergence is
confined to other schemes and malformed URLs, see the counterexample). -/
theorem claim5_classification_agree (c : ConnStr) (p : String)
    (hp : c.parse = .parsed p) (h : (isWsProto p || isHttpProto p) = true) :
    startOutcome c = reconnectOutcome c := by
  obtain ⟨raw, parse⟩ := c
  simp only at hp
  subst hp
  rcases Bool.or_eq_true _ _ |>.mp h with hw | hh
  · simp [startOutcome, reconnectOutcome, classifyStart, chooseTarget, hw]
  · cases hws : isWsProto p
    · simp [startOutcome, reconnectOutcome, classifyStart, chooseTarget, hws, hh]
    · simp [startOutcome, reconnectOutcome, classifyStart, chooseTarget, hws]

theorem claim5_classification_agree_witness :
    startOutcome wsConn = reconnectOutcome wsConn ∧
    startOutcome httpConn = reconnectOutcome httpConn :=
  ⟨claim5_classification_agree wsConn "ws:" rfl (by decide),
   claim5_classification_agree httpConn "http:" rfl (by decide)⟩

/-- Claim C5 counterexample: for the scheme "ftp:" the initial connect
classifies the endpoint as Invalid (aborting with an error), while the
reconnect path classifies nothing as invalid — it proceeds to the
connect call with neither endpoint option set.  The two code paths are
therefore not identical on "any other scheme". -/
theorem claim5_counterexample :
    startOutcome ftpConn = .invalid ∧
    reconnectOutcome ftpConn = .proceedUnset ∧
    startOutcome ftpConn ≠ reconnectOutcome ftpConn := by
  refine ⟨rfl, rfl, ?_⟩
  decide

/-- Claim C6: the endpoint classifier of `startBrowser` maps ws/wss
strings to a direct socket target carrying the literal URL, http/https
strings to a discovery target, any other scheme to an invalid outcome
whose reason names the scheme, and an unparseable string to an invalid
outcome whose reason (the invalid-URL message) can never coincide with
an unsupported-scheme reason. -/
theorem claim6_endpoint_classifier (c : ConnStr) :
    (∀ p, c.parse = .parsed p →
      (isWsProto p = true → classifyStart c = .directSocket c.raw) ∧
      (isHttpProto p = true → classifyStart c = .discovery c.raw) ∧
      (isWsProto p = false → isHttpProto p = false →
        classifyStart c = .invalidScheme p ∧
        startClassError (classifyStart c) = some (schemeErrMsg p) ∧
        ∃ a b, schemeErrMsg p = a ++ p ++ b)) ∧
    (c.parse = .malformed →
      classifyStart c = .invalidURL c.raw ∧
      startClassError (classifyStart c) = some (urlErrMsg c.raw) ∧
      ∀ q, urlErrMsg c.raw ≠ schemeErrMsg q) := by
  obtain ⟨raw, parse⟩ := c
  constructor
  · intro p hp
    simp only at hp
    subst hp
    refine ⟨?_, ?_, ?_⟩
    · intro hw
      simp [classifyStart, hw]
    · intro hh
      cases hws : isWsProto p
      · simp [classifyStart, hws, hh]
      · exfalso
        simp only [isWsProto, Bool.or_eq_true, beq_iff_eq] at hws
        simp only [isHttpProto, Bool.or_eq_true, beq_iff_eq] at hh
        rcases hws with h1 | h1 <;> rcases hh with h2 | h2 <;>
          (subst h1; exact absurd h2 (by decide))
    · intro hw hh
      refine ⟨by simp [classifyStart, hw, hh], by simp [classifyStart, hw, hh, startClassError], ?_⟩
      exact ⟨"不支持的协议: ",
        "，endpoint 必须以 ws://, wss://, http:// 或 https:// 开头", rfl⟩
  · intro hm
    simp only at hm
    subst hm
    exact ⟨rfl, rfl, fun q => (schemeErrMsg_ne_urlErrMsg q raw).symm⟩

theorem claim6_endpoint_classifier_witness :
    classifyStart wsConn = .directSocket wsConn.raw ∧
    classifyStart httpConn = .discovery httpConn.raw ∧
    classifyStart ftpConn = .invalidScheme "ftp:" ∧
    classifyStart badConn = .invalidURL badConn.raw :=
  ⟨(((claim6_endpoint_classifier wsConn).1 "ws:" rfl).1) rfl,
   (((claim6_endpoint_classifier httpConn).1 "http:" rfl).2.1) rfl,
   ((((claim6_endpoint_classifier ftpConn).1 "ftp:" rfl).2.2) rfl rfl).1,
   ((claim6_endpoint_classifier badConn).2 rfl).1⟩

/-- Claim C7: with on-demand mode off and the browser disconnected,
`ensureConnected` raises the terminal reconnection-disabled error when
reconnection is disabled, and the terminal no-reconnection-target error
when neither a saved ws endpoint nor a configured endpoint exists; in
both cases no connect attempt is recorded. -/
theorem claim7_terminal_no_attempt (cfg : RcConfig) (st : RcState)
    (oracle : Nat → ConnectOutcome)
    (hIC : cfg.immediateClose = false) (hConn : st.browserConnected = false) :
    (cfg.enableReconnect = false →
      ensureConnected cfg st oracle =
        ⟨.error "浏览器连接已断开，且未启用自动重连", st.browserWSEndpoint, [], false⟩) ∧
    (cfg.enableReconnect = true → st.browserWSEndpoint = none → cfg.endpoint = none →
      ensureConnected cfg st oracle =
        ⟨.error "浏览器连接已断开，且没有可用的重连端点", none, [], false⟩) := by
  constructor
  · intro hEn
    simp [ensureConnected, hIC, hConn, hEn]
  · intro hEn hWs hEp
    simp [ensureConnected, hIC, hConn, hEn, hWs, hEp]

theorem claim7_terminal_no_attempt_witness :
    ensureConnected cfgNoRec stDisc oracleRefused =
      ⟨.error "浏览器连接已断开，且未启用自动重连", stDisc.browserWSEndpoint, [], false⟩ ∧
    ensureConnected cfgNoEp stNoWs oracleRefused =
      ⟨.error "浏览器连接已断开，且没有可用的重连端点", none, [], false⟩ :=
  ⟨(claim7_terminal_no_attempt cfgNoRec stDisc oracleRefused rfl rfl).1 rfl,
   (claim7_terminal_no_attempt cfgNoEp stNoWs oracleRefused rfl rfl).2 rfl rfl rfl⟩

/-- Claim C1 counterexample: with a live remote handle, a saved ws
endpoint and activePageCount = 5, a disconnect call that throws leaves
all three fields unchanged.  The clearing assignments (index.ts 431-433)
sit in the same `try` as the awaited disconnect (427), so the throw
jumps to the `catch` (435-437) before they run; the error is logged and
not propagated, but the handle is not null and the count is not 0,
contrary to the claim's "regardless of whether the disconnect call
threw". -/
theorem claim1_counterexample :
    (stopBrowser stopSt0 (some "boom")).1 = stopSt0 ∧
    (stopBrowser stopSt0 (some "boom")).1.browser = true ∧
    (stopBrowser stopSt0 (some "boom")).1.activePageCount = 5 ∧
    (stopBrowser stopSt0 (some "boom")).2 = some "停止浏览器时出现错误: boom" :=
  ⟨rfl, rfl, rfl, rfl⟩

/-- Claim C1 (amended): `stopBrowser` never propagates the
disconnect/close error; when that call succeeds it clears the handle and
the saved ws endpoint and resets `activePageCount` to 0, but when the
call throws, the error is only logged and the handle, endpoint and count
are left unchanged (and with no handle the call does nothing). -/
theorem claim1_stop_amended (st : StopState) (m : String) :
    (st.browser = true →
      stopBrowser st none = (⟨false, none, 0⟩, none)) ∧
    (st.browser = true →
      stopBrowser st (some m) = (st, some ("停止浏览器时出现错误: " ++ m))) ∧
    (st.browser = false → ∀ f, stopBrowser st f = (st, none)) := by
  refine ⟨fun h => ?_, fun h => ?_, fun h f => ?_⟩ <;>
    simp [stopBrowser, stopBrowserBody, h]

theorem claim1_stop_amended_witness :
    stopBrowser stopSt0 none = (⟨false, none, 0⟩, none) ∧
    stopBrowser ⟨false, none, 0⟩ (some "x") = (⟨false, none, 0⟩, none) :=
  ⟨(claim1_stop_amended stopSt0 "boom").1 rfl,
   (claim1_stop_amended ⟨false, none, 0⟩ "x").2.2 rfl (some "x")⟩

/-- Reconnection loop under a permanently failing endpoint whose errors
are not of the 404 class: every remaining retry slot is consumed by
exactly one connect attempt and the loop ends by throwing the terminal
error carrying the message of the last attempt. -/
theorem rcLoop_allFail (cfg : RcConfig) (oracle : Nat → ConnectOutcome)
    (hFail : ∀ i, isFailure (oracle i) = true)
    (h404 : ∀ i, is404 (failMsgOf (oracle i)) = false) :
    ∀ fuel ws rc idx, rc + fuel = maxRetriesOf cfg → 1 ≤ fuel →
      (rcLoop cfg oracle fuel ws rc idx).attempts.length = fuel ∧
      (rcLoop cfg oracle fuel ws rc idx).result =
        .error (reconnectFailMsg (failMsgOf (oracle (idx + fuel - 1)))) := by
  intro fuel
  induction fuel with
  | zero => intro ws rc idx h h1; omega
  | succ f ih =>
    intro ws rc idx h _
    have hrc : rc < maxRetriesOf cfg := by omega
    have hm : is404 (failMsgOf (oracle idx)) = false := h404 idx
    simp only [rcLoop]
    rw [if_pos hrc]
    cases ho : oracle idx with
    | err m =>
      rw [ho] at hm
      simp only [failMsgOf] at hm
      cases f with
      | zero =>
        have hterm : maxRetriesOf cfg ≤ rc + 1 := by omega
        simp [ho, hm, failMsgOf, hterm]
      | succ f2 =>
        have hterm : ¬ maxRetriesOf cfg ≤ rc + 1 := by omega
        have hrec := ih ws (rc + 1) (idx + 1) (by omega) (by omega)
        have hidx : idx + 1 + (f2 + 1) - 1 = idx + (f2 + 1 + 1) - 1 := by omega
        rw [hidx] at hrec
        refine ⟨?_, ?_⟩ <;> simp [failMsgOf, hm, hterm, hrec.1, hrec.2]
    | ok b w =>
      cases b with
      | false =>
        rw [ho] at hm
        simp only [failMsgOf] at hm
        cases f with
        | zero =>
          have hterm : maxRetriesOf cfg ≤ rc + 1 := by omega
          simp [ho, hm, failMsgOf, hterm]
        | succ f2 =>
          have hterm : ¬ maxRetriesOf cfg ≤ rc + 1 := by omega
          have hrec := ih ws (rc + 1) (idx + 1) (by omega) (by omega)
          have hidx : idx + 1 + (f2 + 1) - 1 = idx + (f2 + 1 + 1) - 1 := by omega
          rw [hidx] at hrec
          refine ⟨?_, ?_⟩ <;> simp [failMsgOf, hm, hterm, hrec.1, hrec.2]
      | true =>
        have hcontra := hFail idx
        rw [ho] at hcontra
        simp [isFailure] at hcontra

/-- Claim C3 (amended): when reconnection runs with `maxRetries = n ≥ 1`
against an endpoint all of whose connect attempts fail with non-404
errors, exactly `n` connect attempts are made and the terminal error
carries the last underlying cause; with `maxRetries = 0` however the
loop body never runs — no attempt is made and the call returns normally
without raising any error, leaving the browser disconnected. -/
theorem claim3_retry_budget (cfg : RcConfig) (st : RcState)
    (oracle : Nat → ConnectOutcome) (n : Nat)
    (hIC : cfg.immediateClose = false)
    (hConn : st.browserConnected = false)
    (hEn : cfg.enableReconnect = true)
    (hEp : (st.browserWSEndpoint.isSome || cfg.endpoint.isSome) = true)
    (hN : maxRetriesOf cfg = n)
    (hFail : ∀ i, isFailure (oracle i) = true)
    (h404 : ∀ i, is404 (failMsgOf (oracle i)) = false) :
    (1 ≤ n →
      (ensureConnected cfg st oracle).attempts.length = n ∧
      (ensureConnected cfg st oracle).result =
        .error (reconnectFailMsg (failMsgOf (oracle (n - 1))))) ∧
    (n = 0 →
      ensureConnected cfg st oracle = ⟨.ok (), st.browserWSEndpoint, [], false⟩) := by
  have hred : ensureConnected cfg st oracle =
      rcLoop cfg oracle (maxRetriesOf cfg) st.browserWSEndpoint 0 0 := by
    simp [ensureConnected, hIC, hConn, hEn, hEp]
  constructor
  · intro h1
    rw [hred, hN]
    have := rcLoop_allFail cfg oracle hFail h404 n st.browserWSEndpoint 0 0 (by omega) h1
    simpa using this
  · intro h0
    rw [hred, hN, h0, rcLoop]

theorem claim3_retry_budget_witness :
    (ensureConnected cfgDisc3 stDisc oracleRefused).attempts.length = 3 ∧
    (ensureConnected cfgDisc3 stDisc oracleRefused).result =
      .error (reconnectFailMsg "ECONNREFUSED") :=
  (claim3_retry_budget cfgDisc3 stDisc oracleRefused 3 rfl rfl rfl rfl rfl
    (fun _ => rfl) (fun _ => rfl)).1 (by omega)

/-- Claim C3 counterexample: with `maxReconnectRetries = 0`, a
disconnected browser and a permanently refusing endpoint, the claim (for
n = 0) still demands that a terminal error be raised; the code instead
makes zero attempts and returns normally — `while (retryCount <
maxRetries)` is never entered and nothing after the loop throws — so no
error at all is raised, and the browser is left disconnected. -/
theorem claim3_counterexample :
    (ensureConnected cfgRetries0 stDisc oracleRefused).attempts = [] ∧
    (ensureConnected cfgRetries0 stDisc oracleRefused).result = .ok () :=
  ⟨rfl, rfl⟩

/-- Whenever the loop guard holds, the next recorded attempt is a normal
one made with the current `retryCount` and the target chosen from the
current saved endpoint and the configured endpoint. -/
theorem rcLoop_head (cfg : RcConfig) (oracle : Nat → ConnectOutcome)
    (f : Nat) (ws : Option String) (rc idx : Nat) (h : rc < maxRetriesOf cfg) :
    ∃ rest, (rcLoop cfg oracle (f + 1) ws rc idx).attempts =
      (⟨.normal, rc, chooseTarget ws cfg.endpoint⟩ : AttemptRec) :: rest := by
  simp only [rcLoop]
  rw [if_pos h]
  cases ho : oracle idx with
  | err m =>
    dsimp only
    (repeat' split) <;> exact ⟨_, rfl⟩
  | ok b w =>
    cases b with
    | false =>
      dsimp only
      (repeat' split) <;> exact ⟨_, rfl⟩
    | true => exact ⟨[], rfl⟩

/-- One loop iteration in which the attempt fails with a 404-class
error, the fallback connect also fails, and the budget is not yet
exhausted: the loop clears the saved endpoint and continues. -/
theorem rcLoop_404_step (cfg : RcConfig) (oracle : Nat → ConnectOutcome)
    (f : Nat) (ws : Option String) (rc idx : Nat) (m : String) (ft : ConnTarget)
    (hrc : rc < maxRetriesOf cfg)
    (ho : oracle idx = .err m) (h4 : is404 m = true)
    (hFt : fallbackTarget cfg.endpoint = some ft)
    (hfb : isFailure (oracle (idx + 1)) = true)
    (hterm : ¬ maxRetriesOf cfg ≤ rc + 1) :
    rcLoop cfg oracle (f + 1) ws rc idx =
      ⟨(rcLoop cfg oracle f none (rc + 1) (idx + 2)).result,
       (rcLoop cfg oracle f none (rc + 1) (idx + 2)).finalWS,
       ⟨.normal, rc, chooseTarget ws cfg.endpoint⟩ ::
         ⟨.fallback, rc + 1, ft⟩ ::
           (rcLoop cfg oracle f none (rc + 1) (idx + 2)).attempts,
       false⟩ := by
  cases hfb1 : oracle (idx + 1) with
  | err m1 => simp [rcLoop, ho, h4, hFt, hfb1, hrc, hterm, failMsgOf]
  | ok b w2 =>
    cases b with
    | false => simp [rcLoop, ho, h4, hFt, hfb1, hrc, hterm, failMsgOf]
    | true =>
      rw [hfb1] at hfb
      simp [isFailure] at hfb

/-- Claim C4 (amended): when a reconnect attempt fails with a 404-class
error, the controller clears the saved ws endpoint and makes exactly one
additional connect attempt targeting the original configured endpoint —
but the failure is counted against the retry budget *before* that
fallback attempt runs (`retryCount++` at index.ts 538 precedes the
fallback block at 541-576), as the fallback attempt's recorded
`retryCountAt = 1` shows.  The fallback itself consumes no retry slot:
if it succeeds the run ends; if it fails, the next normal attempt is
still issued with `retryCountAt = 1` (only the original failure was
counted) and targets the configured endpoint with the ws endpoint
cleared. -/
theorem claim4_fallback (cfg : RcConfig) (st : RcState)
    (oracle : Nat → ConnectOutcome) (w m : String) (ft : ConnTarget)
    (hIC : cfg.immediateClose = false)
    (hConn : st.browserConnected = false)
    (hEn : cfg.enableReconnect = true)
    (hWs : st.browserWSEndpoint = some w)
    (h0 : oracle 0 = .err m)
    (h4 : is404 m = true)
    (hFt : fallbackTarget cfg.endpoint = some ft)
    (hN : 1 ≤ maxRetriesOf cfg) :
    ((ensureConnected cfg st oracle).attempts.take 2 =
      [⟨.normal, 0, .wsEndpoint w⟩, ⟨.fallback, 1, ft⟩]) ∧
    (∀ w2, oracle 1 = .ok true w2 →
      ensureConnected cfg st oracle =
        ⟨.ok (), some w2, [⟨.normal, 0, .wsEndpoint w⟩, ⟨.fallback, 1, ft⟩], false⟩) ∧
    (isFailure (oracle 1) = true → 2 ≤ maxRetriesOf cfg →
      (ensureConnected cfg st oracle).attempts.take 3 =
        [⟨.normal, 0, .wsEndpoint w⟩, ⟨.fallback, 1, ft⟩,
         ⟨.normal, 1, chooseTarget none cfg.endpoint⟩]) := by
  have hred : ensureConnected cfg st oracle =
      rcLoop cfg oracle (maxRetriesOf cfg) (some w) 0 0 := by
    simp [ensureConnected, hIC, hConn, hEn, hWs]
  obtain ⟨k, hk⟩ : ∃ k, maxRetriesOf cfg = k + 1 := ⟨maxRetriesOf cfg - 1, by omega⟩
  have hguard : (0 : Nat) < maxRetriesOf cfg := by omega
  refine ⟨?_, ?_, ?_⟩
  · rw [hred, hk]
    cases ho1 : oracle 1 with
    | ok b w2 =>
      cases b with
      | true =>
        simp [rcLoop, h0, h4, hFt, ho1, chooseTarget, failMsgOf, hguard]
      | false =>
        by_cases hterm : maxRetriesOf cfg ≤ 1 <;>
          simp [rcLoop, h0, h4, hFt, ho1, chooseTarget, failMsgOf, hguard, hterm]
    | err m1 =>
      by_cases hterm : maxRetriesOf cfg ≤ 1 <;>
        simp [rcLoop, h0, h4, hFt, ho1, chooseTarget, failMsgOf, hguard, hterm]
  · intro w2 ho1
    rw [hred, hk]
    simp [rcLoop, h0, h4, hFt, ho1, chooseTarget, failMsgOf, hguard]
  · intro hf h2
    obtain ⟨k2, hk2⟩ : ∃ k2, k = k2 + 1 := ⟨k - 1, by omega⟩
    have hterm : ¬ maxRetriesOf cfg ≤ 0 + 1 := by omega
    obtain ⟨rest, hrest⟩ := rcLoop_head cfg oracle k2 none 1 2 (by omega)
    rw [hred, hk,
      rcLoop_404_step cfg oracle k (some w) 0 0 m ft hguard h0 h4 hFt hf hterm,
      hk2, hrest]
    simp [chooseTarget]

theorem claim4_fallback_witness :
    ensureConnected cfgDisc3 stDisc oracle404ThenOk =
      ⟨.ok (), some "ws://new",
       [⟨.normal, 0, .wsEndpoint "ws://saved"⟩,
        ⟨.fallback, 1, .browserURL "http://localhost:14550"⟩], false⟩ ∧
    (ensureConnected cfgDisc3 stDisc oracle404Fail).attempts.take 3 =
      [⟨.normal, 0, .wsEndpoint "ws://saved"⟩,
       ⟨.fallback, 1, .browserURL "http://localhost:14550"⟩,
       ⟨.normal, 1, .browserURL "http://localhost:14550"⟩] :=
  ⟨(claim4_fallback cfgDisc3 stDisc oracle404ThenOk "ws://saved"
      "Unexpected server response: 404" (.browserURL "http://localhost:14550")
      rfl rfl rfl rfl rfl (by decide) rfl (by decide)).2.1 "ws://new" rfl,
   (claim4_fallback cfgDisc3 stDisc oracle404Fail "ws://saved"
      "Unexpected server response: 404" (.browserURL "http://localhost:14550")
      rfl rfl rfl rfl rfl (by decide) rfl (by decide)).2.2 rfl (by decide)⟩

/-- Claim C4 counterexample: with `maxRetries = 3`, a saved ws endpoint
and a first connect failing with "Unexpected server response: 404", the
run's second recorded attempt is the fallback — issued with
`retryCountAt = 1`, i.e. the failure had already been counted against
the budget when the fallback ran, not `retryCountAt = 0` as the claim's
"fallback happens before the failure is counted" requires. -/
theorem claim4_counterexample :
    (ensureConnected cfgDisc3 stDisc oracle404ThenOk).attempts =
      [⟨.normal, 0, .wsEndpoint "ws://saved"⟩,
       ⟨.fallback, 1, .browserURL "http://localhost:14550"⟩] ∧
    (ensureConnected cfgDisc3 stDisc oracle404ThenOk).attempts[1]? ≠
      some ⟨.fallback, 0, .browserURL "http://localhost:14550"⟩ := by
  refine ⟨rfl, ?_⟩
  decide

/-- A well-formed trace stays well-formed on every prefix. -/
theorem wfOps_append (l1 l2 : List PageOp) :
    ∀ o, wfOps o (l1 ++ l2) = true → wfOps o l1 = true := by
  induction l1 with
  | nil => intro o _; rfl
  | cons op rest ih =>
    intro o h
    cases op with
    | createOk => exact ih _ (by simpa [wfOps] using h)
    | createFailEarly => exact ih _ (by simpa [wfOps] using h)
    | createFailLate td => exact ih _ (by simpa [wfOps] using h)
    | createFailLateCloseFail => exact ih _ (by simpa [wfOps] using h)
    | closeOk td =>
      simp only [List.cons_append, wfOps, Bool.and_eq_true] at h ⊢
      exact ⟨h.1, ih _ h.2⟩
    | closeFail =>
      simp only [List.cons_append, wfOps, Bool.and_eq_true] at h ⊢
      exact ⟨h.1, ih _ h.2⟩

/-- Invariant of the page tracker: along a well-formed trace the counter
always equals the number of pages currently held plus the leaks
accumulated so far (one per failed creation whose cleanup close
rejected), and held pages plus completed closes equal the initial pages
plus successful creations. -/
theorem pageRun_inv (ops : List PageOp) : ∀ (st : PageState) (k : Nat),
    wfOps st.openPages ops = true → st.count = (st.openPages : Int) + k →
    (pageRun st ops).count =
      ((pageRun st ops).openPages : Int) + (k + leaksOf ops) ∧
    (pageRun st ops).openPages + closesOf ops = st.openPages + createsOf ops := by
  induction ops with
  | nil =>
    intro st k _ hc
    refine ⟨?_, by simp [pageRun, closesOf, createsOf]⟩
    simp only [pageRun, leaksOf]
    omega
  | cons op rest ih =>
    intro st k hwf hc
    cases op with
    | createOk =>
      have h2 := ih ⟨st.count + 1, st.openPages + 1⟩ k
        (by simpa [wfOps] using hwf) (by push_cast; omega)
      refine ⟨?_, ?_⟩ <;>
        · have h3 := h2.2
          have h4 := h2.1
          simp only [pageRun, pageStep, createsOf, closesOf, leaksOf] at h3 h4 ⊢
          omega
    | createFailEarly =>
      have h2 := ih st k (by simpa [wfOps] using hwf) hc
      refine ⟨?_, ?_⟩ <;>
        · have h3 := h2.2
          have h4 := h2.1
          simp only [pageRun, pageStep, createsOf, closesOf, leaksOf] at h3 h4 ⊢
          omega
    | createFailLate td =>
      have hcnt : (if td && decide (st.count + 1 - 1 ≤ 0) then 0
          else st.count + 1 - 1) = st.count := by
        cases td with
        | false => simp
        | true =>
          by_cases hle : st.count + 1 - 1 ≤ 0 <;> simp [hle] <;> omega
      have h2 := ih ⟨st.count, st.openPages⟩ k (by simpa [wfOps] using hwf) hc
      refine ⟨?_, ?_⟩ <;>
        · have h3 := h2.2
          have h4 := h2.1
          simp only [pageRun, pageStep, createsOf, closesOf, leaksOf, hcnt]
            at h3 h4 ⊢
          omega
    | createFailLateCloseFail =>
      have h2 := ih ⟨st.count + 1, st.openPages⟩ (k + 1)
        (by simpa [wfOps] using hwf) (by push_cast; omega)
      refine ⟨?_, ?_⟩ <;>
        · have h3 := h2.2
          have h4 := h2.1
          simp only [pageRun, pageStep, createsOf, closesOf, leaksOf] at h3 h4 ⊢
          omega
    | closeOk td =>
      have hwf2 : 0 < st.openPages ∧ wfOps (st.openPages - 1) rest = true := by
        simpa [wfOps] using hwf
      have hcnt : (if td && decide (st.count - 1 ≤ 0) then 0
          else st.count - 1) = st.count - 1 := by
        cases td with
        | false => simp
        | true =>
          by_cases hle : st.count - 1 ≤ 0 <;> simp [hle]
          omega
      have h2 := ih ⟨st.count - 1, st.openPages - 1⟩ k (by simpa using hwf2.2)
        (by have := hwf2.1; push_cast; omega)
      refine ⟨?_, ?_⟩ <;>
        · have h3 := h2.2
          have h4 := h2.1
          have h5 := hwf2.1
          simp only [pageRun, pageStep, createsOf, closesOf, leaksOf, hcnt]
            at h3 h4 ⊢
          omega
    | closeFail =>
      have hwf2 : 0 < st.openPages ∧ wfOps st.openPages rest = true := by
        simpa [wfOps] using hwf
      have h2 := ih st k hwf2.2 hc
      refine ⟨?_, ?_⟩ <;>
        · have h3 := h2.2
          have h4 := h2.1
          simp only [pageRun, pageStep, createsOf, closesOf, leaksOf] at h3 h4 ⊢
          omega

/-- Claim C2 (amended): along any well-formed sequence of page creations
and page closes in on-demand mode, `activePageCount` ends at the number
of successful creations minus the number of completed closes *plus* the
number of failed creations whose cleanup close rejected; when no cleanup
close rejects, this is exactly creations minus closes; and the counter
is never negative at any prefix of the trace regardless. -/
theorem claim2_page_count (ops : List PageOp) (hwf : wfOps 0 ops = true) :
    ((pageRun ⟨0, 0⟩ ops).count =
      (createsOf ops : Int) - (closesOf ops : Int) + (leaksOf ops : Int)) ∧
    (leaksOf ops = 0 →
      (pageRun ⟨0, 0⟩ ops).count =
        (createsOf ops : Int) - (closesOf ops : Int)) ∧
    (∀ pre suf, ops = pre ++ suf → 0 ≤ (pageRun ⟨0, 0⟩ pre).count) := by
  have h1 := pageRun_inv ops ⟨0, 0⟩ 0 hwf (by simp)
  have ha := h1.1
  have hb := h1.2
  simp only [] at hb
  norm_num at hb
  refine ⟨by omega, fun hleak => by omega, ?_⟩
  intro pre suf hps
  have hwfp : wfOps 0 pre = true := wfOps_append pre suf 0 (hps ▸ hwf)
  have h2 := pageRun_inv pre ⟨0, 0⟩ 0 hwfp (by simp)
  have := h2.1
  omega

theorem claim2_page_count_witness :
    ((pageRun ⟨0, 0⟩ opsWleak).count =
      (createsOf opsWleak : Int) - (closesOf opsWleak : Int) +
        (leaksOf opsWleak : Int)) ∧
    ((pageRun ⟨0, 0⟩ opsW).count =
      (createsOf opsW : Int) - (closesOf opsW : Int)) ∧
    0 ≤ (pageRun ⟨0, 0⟩ opsWpre).count :=
  ⟨(claim2_page_count opsWleak (by decide)).1,
   (claim2_page_count opsW (by decide)).2.1 rfl,
   (claim2_page_count opsW (by decide)).2.2 opsWpre opsWsuf rfl⟩

/-- Claim C2 counterexample: one `page()` call that fails after the
increment (648) and whose cleanup close — the `await page.close()` in
the catch at 692 — itself rejects: the wrapped close awaits
`originalClose` (651) before the decrement (652), so the rejection skips
the decrement and `activePageCount` ends at 1 although zero creations
succeeded and zero closes completed; the claimed creations-minus-closes
equality is false on this trace. -/
theorem claim2_counterexample :
    wfOps 0 opsLeak = true ∧
    (pageRun ⟨0, 0⟩ opsLeak).count = 1 ∧
    createsOf opsLeak = 0 ∧
    closesOf opsLeak = 0 ∧
    (pageRun ⟨0, 0⟩ opsLeak).count ≠
      (createsOf opsLeak : Int) - (closesOf opsLeak : Int) := by
  refine ⟨rfl, rfl, rfl, rfl, ?_⟩
  decide

/-- Claim C8 (code behavior): one caller running alone performs exactly
one connect attempt, but two interleaved callers that both pass the
connected check before either connect resolves perform two independent
connect attempts — the source has no in-flight guard (no flag, no shared
promise anywhere in index.ts 463-588), so N concurrent callers do not
collapse into one attempt sequence. -/
theorem claim8_no_guard_race :
    runRace [true, true, true] ⟨false, 0⟩ ensureProg [] = ⟨true, 1⟩ ∧
    runRace raceSched ⟨false, 0⟩ ensureProg ensureProg = ⟨true, 2⟩ :=
  ⟨rfl, rfl⟩

/-- Claim C9: starting the font server with the path it is already
serving returns the identical existing URL, leaves the state untouched
and emits no listener event; starting it with a different path closes
the prior listener first — any further event is the binding of the new
port, after the close. -/
theorem claim9_font_server (st : FSState) :
    (∀ path env q, st.hasServer = true → st.fontPath = some path →
      st.port = some q →
      fsStart st path env = (.ok (fontUrlOf q), st, []) ∧
      fsGetFontUrl st = .ok (fontUrlOf q)) ∧
    (∀ path env, st.hasServer = true → st.fontPath ≠ some path →
      ∃ rest, (fsStart st path env).2.2 = .closeListener :: rest ∧
        ∀ ev ∈ rest, ∃ pp, ev = FSEvent.bindPort pp) := by
  constructor
  · intro path env q hS hP hQ
    constructor
    · simp [fsStart, fsGetFontUrl, hS, hP, hQ]
    · simp [fsGetFontUrl, hQ]
  · intro path env hS hP
    have hbeq : (st.fontPath == some path) = false := beq_eq_false_iff_ne.mpr hP
    obtain ⟨sr, fp, lr⟩ := env
    cases sr with
    | none =>
      refine ⟨[], ?_, by simp⟩
      simp [fsStart, fsStop, hS, hbeq]
    | some isf =>
      cases isf with
      | false =>
        refine ⟨[], ?_, by simp⟩
        simp [fsStart, fsStop, hS, hbeq]
      | true =>
        cases hext : supportedExts.contains ((extnameOf path).toLower) with
        | true =>
          have hmem : (extnameOf path).toLower ∈ supportedExts := by
            simpa using hext
          cases lr with
          | none =>
            refine ⟨[.bindPort fp], ?_, ?_⟩
            · simp [fsStart, fsStop, hS, hbeq, hmem]
            · intro ev hev
              simp at hev
              exact ⟨fp, hev⟩
          | some m =>
            refine ⟨[.bindPort fp], ?_, ?_⟩
            · simp [fsStart, fsStop, hS, hbeq, hmem]
            · intro ev hev
              simp at hev
              exact ⟨fp, hev⟩
        | false =>
          have hmem : ¬ (extnameOf path).toLower ∈ supportedExts := by
            simpa using hext
          refine ⟨[], ?_, by simp⟩
          simp [fsStart, fsStop, hS, hbeq, hmem]

theorem claim9_font_server_witness :
    fsStart fsRunning "data/fonts/a.ttf" fsEnvOk =
      (.ok (fontUrlOf 4321), fsRunning, []) ∧
    ∃ rest, (fsStart fsRunning "data/fonts/b.ttf" fsEnvOk).2.2 =
      .closeListener :: rest ∧ ∀ ev ∈ rest, ∃ pp, ev = FSEvent.bindPort pp :=
  ⟨((claim9_font_server fsRunning).1 "data/fonts/a.ttf" fsEnvOk 4321
      rfl rfl rfl).1,
   (claim9_font_server fsRunning).2 "data/fonts/b.ttf" fsEnvOk rfl (by decide)⟩

/-- Claim C10: `injectDefaultFont` never propagates an exception — its
outcome is always `.ok` whatever the page operations do — and when font
injection is disabled or no font URL is available it returns without
running any page operation. -/
theorem claim10_inject_never_throws (cfg : InjectConfig)
    (fontUrl : Option String) (page : PageOracle) :
    (∃ logged, (injectDefaultFont cfg fontUrl page).1 = .ok logged) ∧
    (cfg.enableFont = false ∨ fontUrl = none →
      injectDefaultFont cfg fontUrl page = (.ok none, [])) := by
  constructor
  · cases hE : cfg.enableFont with
    | false => exact ⟨none, by simp [injectDefaultFont, hE]⟩
    | true =>
      cases fontUrl with
      | none => exact ⟨none, by simp [injectDefaultFont, hE]⟩
      | some u =>
        rcases hB : injectBody cfg page with ⟨r, steps⟩
        cases r with
        | ok v => exact ⟨none, by simp [injectDefaultFont, hE, hB]⟩
        | error m =>
          exact ⟨some ("默认字体注入失败: " ++ m),
            by simp [injectDefaultFont, hE, hB]⟩
  · intro h
    rcases h with h | h
    · simp [injectDefaultFont, h]
    · cases hE : cfg.enableFont <;> simp [injectDefaultFont, h, hE]

theorem claim10_inject_never_throws_witness :
    injectDefaultFont cfgInjectOff (some "http://localhost:1/font") pageAllFail
      = (.ok none, []) ∧
    ∃ logged,
      (injectDefaultFont cfgInjectOn (some "http://localhost:1/font")
        pageAllFail).1 = .ok logged :=
  ⟨(claim10_inject_never_throws cfgInjectOff (some "http://localhost:1/font")
      pageAllFail).2 (Or.inl rfl),
   (claim10_inject_never_throws cfgInjectOn (some "http://localhost:1/font")
      pageAllFail).1⟩

